import Mathlib

/-!
# Verification of the Scoring & Signal Synthesis Engine

Shallow embedding, in Lean 4, of the pure scoring core of the
`solana-trading-web-vercel` repository:

* `scripts/analyze_contract.py` — risk sub-scores and overall risk
  (`SolanaContractAnalyzer.calculate_risk_scores`, `calculate_overall_risk`);
* `scripts/smart_money_momentum_agent.py` — holder profiling, volume momentum,
  momentum indicators, chart patterns, component scores and the combined signal
  (`SmartMoneyMomentumAgent`);
* `scripts/scalp_strategy.py` — trade levels and position sizing
  (`ScalpStrategyGenerator`);
* `scripts/chart_analyzer.py` — RSI (`ChartAnalyzer.calculate_rsi`).

Modelling conventions:

* Python `float` arithmetic is modelled by exact rational arithmetic (`ℚ`);
  Python `int` by `ℤ` or `ℕ` as appropriate.  Decimal literals such as `0.15`
  denote the exact rationals the source writes.
* Python dicts that the scoring functions read with `.get(key, default)` are
  modelled by structures holding the read fields; an absent JSON key is
  modelled by the default the source supplies (`0` for numeric fields), which
  is also how the source's truthiness tests (`if vol:`) treat it.
* Fallible functions (`return None`, `return {}`) return `Option`.
* `int(x)` (truncation toward zero) is `pyTrunc`; `round(x, n)`
  (round-half-to-even) is `pyRound`; `f"{x:.nf}"` formatting is `pyFormatF`.
* The wall clock (`datetime.now().isoformat()`) is threaded through as an
  explicit `now : String` argument where the source reads it.
-/

/-- Python `int(x)` on a rational: truncation toward zero. -/
def pyTrunc (q : ℚ) : ℤ := if q < 0 then ⌈q⌉ else ⌊q⌋

/-! ## `scripts/analyze_contract.py` -/

/-- Dataclass `TokenMetadata` (`analyze_contract.py`).
`is_initialized` is rendered `isInitialized`. -/
structure TokenMetadata where
  name : String
  symbol : String
  mint_authority : Option String
  freeze_authority : Option String
  supply : ℤ
  decimals : ℕ
  isInitialized : Bool
  deriving Repr, DecidableEq

/-- Dataclass `VolumeAnalysis` (`analyze_contract.py`): per-timeframe volume
metrics.  Only `suspicious_volume_pattern` is read by the risk scorer. -/
structure VolumeAnalysis where
  timeframe : String
  total_volume : ℚ
  avg_volume : ℚ
  volume_spikes : ℕ
  suspicious_volume_pattern : Bool
  volume_trend : String
  buy_sell_ratio : ℚ
  liquidity_depth : ℚ
  price_volatility : ℚ
  deriving Repr, DecidableEq

/-- Dataclass `ChartMetrics` (`analyze_contract.py`); the `timeframes` dict is
modelled as an association list in iteration order. -/
structure ChartMetrics where
  current_price : ℚ
  price_change_24h : ℚ
  market_cap : ℚ
  liquidity_usd : ℚ
  fdv : ℚ
  pairs_count : ℕ
  volume_24h : ℚ
  top_pair_address : Option String
  dex_platform : Option String
  timeframes : List (String × VolumeAnalysis)
  deriving Repr, DecidableEq

/-- Dataclass `RiskFactors` (`analyze_contract.py`): ten integer sub-scores. -/
structure RiskFactors where
  mint_authority_risk : ℤ
  freeze_authority_risk : ℤ
  liquidity_risk : ℤ
  holder_concentration_risk : ℤ
  contract_age_risk : ℤ
  verification_risk : ℤ
  scam_pattern_risk : ℤ
  volume_risk : ℤ
  volatility_risk : ℤ
  price_manipulation_risk : ℤ
  deriving Repr, DecidableEq

/-- The `holders : Dict` argument of `calculate_risk_scores`, modelled by the
single key it reads, `holders.get("top_10_concentration", 0)`. -/
structure HoldersDict where
  top_10_concentration : ℚ
  deriving Repr, DecidableEq

/-- The `age : Dict` argument of `calculate_risk_scores`, modelled by the
single key it reads, `age.get("age_days", 0)`. -/
structure AgeDict where
  age_days : ℚ
  deriving Repr, DecidableEq

/-- Embeds `SolanaContractAnalyzer.calculate_risk_scores`
(`analyze_contract.py`): the ten risk-factor sub-scores. -/
def calculate_risk_scores (metadata : TokenMetadata) (holders : HoldersDict)
    (age : AgeDict) (red_flags : List String) (chart : ChartMetrics) :
    RiskFactors :=
  let mint_risk : ℤ := if metadata.mint_authority.isSome then 100 else 0
  let freeze_risk : ℤ := if metadata.freeze_authority.isSome then 80 else 0
  let liquidity_risk : ℤ :=
    if chart.liquidity_usd > 1000000 then 10
    else if chart.liquidity_usd > 500000 then 20
    else if chart.liquidity_usd > 100000 then 40
    else if chart.liquidity_usd > 50000 then 60
    else if chart.liquidity_usd > 10000 then 80
    else 100
  let concentration := holders.top_10_concentration
  let holder_risk : ℤ :=
    if concentration > 90 then 100
    else if concentration > 70 then 80
    else if concentration > 50 then 60
    else if concentration > 30 then 40
    else 20
  let age_days := age.age_days
  let age_risk : ℤ :=
    if age_days < 1 then 90
    else if age_days < 7 then 70
    else if age_days < 30 then 50
    else if age_days < 90 then 30
    else 10
  let verification_risk : ℤ := if ¬ metadata.isInitialized then 50 else 0
  let scam_risk : ℤ := min (red_flags.length * 10 : ℤ) 100
  let volume_risk : ℤ :=
    if chart.liquidity_usd > 0 then
      let vol_liq_ratio := chart.volume_24h / chart.liquidity_usd
      if vol_liq_ratio > 10 then 80
      else if vol_liq_ratio > 5 then 60
      else if vol_liq_ratio < 0.1 then 70
      else 30
    else 50
  let volatility_risk : ℤ :=
    if |chart.price_change_24h| > 100 then 90
    else if |chart.price_change_24h| > 50 then 70
    else if |chart.price_change_24h| > 20 then 50
    else 30
  let manipulation_risk : ℤ :=
    min (chart.timeframes.foldl
      (fun acc tf => if tf.2.suspicious_volume_pattern then acc + 15 else acc)
      (0 : ℤ)) 100
  { mint_authority_risk := mint_risk
    freeze_authority_risk := freeze_risk
    liquidity_risk := liquidity_risk
    holder_concentration_risk := holder_risk
    contract_age_risk := age_risk
    verification_risk := verification_risk
    scam_pattern_risk := scam_risk
    volume_risk := volume_risk
    volatility_risk := volatility_risk
    price_manipulation_risk := manipulation_risk }

/-- Embeds `SolanaContractAnalyzer.calculate_overall_risk` (`analyze_contract.py`):
weighted sum of the ten sub-scores, truncated with `int(...)`, then the
rating from the threshold chain. -/
def calculate_overall_risk (factors : RiskFactors) : ℤ × String :=
  let weighted_score : ℚ :=
    (factors.mint_authority_risk : ℚ) * 0.15 +
    (factors.freeze_authority_risk : ℚ) * 0.08 +
    (factors.liquidity_risk : ℚ) * 0.15 +
    (factors.holder_concentration_risk : ℚ) * 0.12 +
    (factors.contract_age_risk : ℚ) * 0.08 +
    (factors.verification_risk : ℚ) * 0.07 +
    (factors.scam_pattern_risk : ℚ) * 0.12 +
    (factors.volume_risk : ℚ) * 0.10 +
    (factors.volatility_risk : ℚ) * 0.08 +
    (factors.price_manipulation_risk : ℚ) * 0.05
  let score := pyTrunc weighted_score
  let rating :=
    if score ≤ 20 then "LOW"
    else if score ≤ 40 then "MEDIUM"
    else if score ≤ 60 then "HIGH"
    else "EXTREME"
  (score, rating)

/-- Spec formulation (§4.1/§8): the weighted sum of the ten sub-scores with the
fixed weights mint .15, freeze .08, liquidity .15, concentration .12, age .08,
verification .07, scam .12, volume .10, volatility .08, manipulation .05. -/
def specWeightedSum (factors : RiskFactors) : ℚ :=
  (factors.mint_authority_risk : ℚ) * 0.15 +
  (factors.freeze_authority_risk : ℚ) * 0.08 +
  (factors.liquidity_risk : ℚ) * 0.15 +
  (factors.holder_concentration_risk : ℚ) * 0.12 +
  (factors.contract_age_risk : ℚ) * 0.08 +
  (factors.verification_risk : ℚ) * 0.07 +
  (factors.scam_pattern_risk : ℚ) * 0.12 +
  (factors.volume_risk : ℚ) * 0.10 +
  (factors.volatility_risk : ℚ) * 0.08 +
  (factors.price_manipulation_risk : ℚ) * 0.05

/-- Spec formulation (§3/§8): the rating as a step function of the score —
LOW for score ≤ 20, MEDIUM for 21–40, HIGH for 41–60, EXTREME for score > 60. -/
def specRating (score : ℤ) : String :=
  if score ≤ 20 then "LOW"
  else if 21 ≤ score ∧ score ≤ 40 then "MEDIUM"
  else if 41 ≤ score ∧ score ≤ 60 then "HIGH"
  else "EXTREME"

/-! ## `scripts/scalp_strategy.py` -/

/-- The entry/stop/target levels returned as a dict by
`ScalpStrategyGenerator.calculate_entry_exit`. -/
structure TradeLevels where
  entry : ℚ
  stop_loss : ℚ
  tp1 : ℚ
  tp2 : ℚ
  tp3 : ℚ
  deriving Repr, DecidableEq

/-- The per-setup-type base levels of `calculate_entry_exit`
(`scalp_strategy.py`), before the risk-score adjustment.  Branch order as in
the source: `pump_continuation`, `dip_buy`, `range_play`, `momentum`, and the
`standard` fallback. -/
def baseLevels (setup_type : String) (current_price : ℚ) : TradeLevels :=
  if setup_type = "pump_continuation" then
    { entry := current_price, stop_loss := current_price * 0.95,
      tp1 := current_price * 1.02, tp2 := current_price * 1.05,
      tp3 := current_price * 1.10 }
  else if setup_type = "dip_buy" then
    { entry := current_price, stop_loss := current_price * 0.93,
      tp1 := current_price * 1.03, tp2 := current_price * 1.08,
      tp3 := current_price * 1.15 }
  else if setup_type = "range_play" then
    { entry := current_price, stop_loss := current_price * 0.97,
      tp1 := current_price * 1.015, tp2 := current_price * 1.03,
      tp3 := current_price * 1.05 }
  else if setup_type = "momentum" then
    { entry := current_price, stop_loss := current_price * 0.96,
      tp1 := current_price * 1.025, tp2 := current_price * 1.06,
      tp3 := current_price * 1.12 }
  else
    { entry := current_price, stop_loss := current_price * 0.96,
      tp1 := current_price * 1.02, tp2 := current_price * 1.05,
      tp3 := current_price * 1.10 }

/-- The `# Adjust for risk score` block of `calculate_entry_exit`
(`scalp_strategy.py`): risk ≤ 30 leaves the levels unchanged; risk 31–40
sets `tp3 = tp2`; risk > 40 sets `tp2 = tp1 * 1.02` and then `tp3 = tp2`. -/
def adjustForRisk (risk_score : ℤ) (l : TradeLevels) : TradeLevels :=
  if risk_score ≤ 30 then l
  else if risk_score ≤ 40 then { l with tp3 := l.tp2 }
  else
    let tp2 := l.tp1 * 1.02
    { l with tp2 := tp2, tp3 := tp2 }

/-- Embeds `ScalpStrategyGenerator.calculate_entry_exit` (`scalp_strategy.py`).
The contract dict is modelled by the two fields the function uses,
`current_price` and `overall_risk_score` (the read of `price_change_24h` is
dead in the source).  `current_price <= 0` returns the empty dict (`none`). -/
def calculate_entry_exit (current_price : ℚ) (risk_score : ℤ)
    (setup_type : String) : Option TradeLevels :=
  if current_price ≤ 0 then none
  else some (adjustForRisk risk_score (baseLevels setup_type current_price))

/-- Embeds `ScalpStrategyGenerator.position_size_by_risk` (`scalp_strategy.py`). -/
def position_size_by_risk (risk_score : ℤ) : ℚ :=
  if risk_score ≤ 30 then 3.0
  else if risk_score ≤ 35 then 2.5
  else if risk_score ≤ 40 then 2.0
  else 1.0

/-! ## Python numeric helpers shared by the agent embedding -/

/-- Round a rational to the nearest integer, ties to even — the rounding used
by Python's `round` and `format` (on the exact value; the source's binary
floats are modelled by exact rationals throughout). -/
def roundHalfEven (q : ℚ) : ℤ :=
  let f := ⌊q⌋
  if q - f < 1/2 then f
  else if 1/2 < q - f then f + 1
  else if f % 2 = 0 then f else f + 1

/-- Python `round(x, ndigits)` on the exact rational value. -/
def pyRound (ndigits : ℕ) (x : ℚ) : ℚ :=
  (roundHalfEven (x * 10 ^ ndigits) : ℚ) / 10 ^ ndigits

/-- Python `f"\x7bx:.pf\x7d"` fixed-point formatting of the exact rational
value with `prec` digits after the point. -/
def pyFormatF (prec : ℕ) (x : ℚ) : String :=
  let r := (roundHalfEven (|x| * 10 ^ prec)).toNat
  let ip := r / 10 ^ prec
  let fp := r % 10 ^ prec
  let fpDigits := toString fp
  let fpStr := String.mk (List.replicate (prec - fpDigits.length) '0') ++ fpDigits
  (if x < 0 then "-" else "") ++ toString ip ++
    (if prec = 0 then "" else "." ++ fpStr)

/-! ## `scripts/smart_money_momentum_agent.py` — data model -/

/-- Constant `VOLUME_SPIKE_THRESHOLD` (`smart_money_momentum_agent.py`). -/
def VOLUME_SPIKE_THRESHOLD : ℚ := 2.5

/-- A holder dict as built by `fetch_token_holders`
(`smart_money_momentum_agent.py`): keys `address`, `balance`, `percent_held`,
`uiAmount` (the last is never read by `analyze_holders`). -/
structure RawHolder where
  address : String
  balance : ℚ
  percent_held : ℚ
  uiAmount : ℚ
  deriving Repr, DecidableEq

/-- Dataclass `HolderProfile` (`smart_money_momentum_agent.py`). -/
structure HolderProfile where
  wallet_address : String
  balance : ℚ
  balance_usd : ℚ
  percent_held : ℚ
  entry_price : Option ℚ := none
  avg_buy_price : Option ℚ := none
  realized_pnl : ℚ := 0
  unrealized_pnl : ℚ := 0
  total_trades : ℕ := 0
  profitable_trades : ℕ := 0
  win_rate : ℚ := 0
  avg_profit_per_trade : ℚ := 0
  holding_period_days : ℚ := 0
  last_activity : Option String := none
  is_smart_money : Bool := false
  is_whale : Bool := false
  tags : List String := []
  deriving Repr, DecidableEq

/-- Dataclass `HolderMetrics` (`smart_money_momentum_agent.py`). -/
structure HolderMetrics where
  total_holders : ℕ
  active_holders_24h : ℕ
  smart_money_count : ℕ
  whale_count : ℕ
  smart_money_holdings_percent : ℚ
  concentration_risk : String
  holder_growth_rate : ℚ
  avg_holding_time : ℚ
  smart_money_buying : Bool
  smart_money_selling : Bool
  smart_money_net_flow : ℚ
  top_holders : List HolderProfile := []
  smart_money_wallets : List String := []
  deriving Repr, DecidableEq

/-- The `HolderProfile` the `analyze_holders` loop builds for one raw holder:
whale iff `percent_held >= 1.0`, smart money iff `percent_held >= 0.5` and
`balance * price >= 5000`. -/
def profileOf (price_usd : ℚ) (holder : RawHolder) : HolderProfile :=
  let balance_usd := holder.balance * price_usd
  let is_whale : Bool := decide (holder.percent_held ≥ 1.0)
  let is_smart : Bool := decide (holder.percent_held ≥ 0.5 ∧ balance_usd ≥ 5000)
  { wallet_address := holder.address
    balance := holder.balance
    balance_usd := balance_usd
    percent_held := holder.percent_held
    is_whale := is_whale
    is_smart_money := is_smart
    tags := if is_whale then ["whale"] else [] }

/-- Embeds `SmartMoneyMomentumAgent.analyze_holders`
(`smart_money_momentum_agent.py`), over the raw holder list returned by
`fetch_token_holders` (the network fetch is the snapshot input).  Analyzes the
top 20 holders; an empty list yields the all-unknown metrics. -/
def analyze_holders (raw_holders : List RawHolder) (price_usd : ℚ) :
    HolderMetrics :=
  if raw_holders.isEmpty then
    { total_holders := 0, active_holders_24h := 0, smart_money_count := 0,
      whale_count := 0, smart_money_holdings_percent := 0,
      concentration_risk := "unknown", holder_growth_rate := 0,
      avg_holding_time := 0, smart_money_buying := false,
      smart_money_selling := false, smart_money_net_flow := 0 }
  else
    let top_holders := (raw_holders.take 20).map (profileOf price_usd)
    let smart_profiles := top_holders.filter (·.is_smart_money)
    let smart_money_wallets := smart_profiles.map (·.wallet_address)
    let total_smart_money_holdings := (smart_profiles.map (·.percent_held)).sum
    let whale_count := (top_holders.filter (·.is_whale)).length
    let top_10_pct : ℚ := ((top_holders.take 10).map (·.percent_held)).sum
    let concentration_risk :=
      if top_10_pct > 50 then "high"
      else if top_10_pct > 30 then "medium"
      else "low"
    let smart_money_buying : Bool :=
      decide (2 < (top_holders.filter
        (fun h => h.is_smart_money && decide (h.balance_usd > 10000))).length)
    let smart_money_selling : Bool := false
    { total_holders := raw_holders.length
      active_holders_24h := raw_holders.length
      smart_money_count := smart_money_wallets.length
      whale_count := whale_count
      smart_money_holdings_percent := total_smart_money_holdings
      concentration_risk := concentration_risk
      holder_growth_rate := 0
      avg_holding_time := 0
      smart_money_buying := smart_money_buying
      smart_money_selling := smart_money_selling
      smart_money_net_flow :=
        if smart_money_buying then 1.0
        else if smart_money_selling then -1.0 else 0.0
      top_holders := top_holders
      smart_money_wallets := smart_money_wallets }

/-- One pair object of the DexScreener `token-pairs/v1/solana/...` response,
with the fields the agent reads.  A key absent from the JSON is modelled by
the `0` (or `""`) default the source supplies via `.get(..., 0)`; the source's
truthiness tests (`if vol:`) treat `0` and "absent" identically. -/
structure TokenPair where
  baseToken_symbol : String := "UNKNOWN"
  priceUsd : ℚ := 0
  liquidity_usd : ℚ := 0
  volume_h6 : ℚ := 0
  volume_h24 : ℚ := 0
  priceChange_m5 : ℚ := 0
  priceChange_h1 : ℚ := 0
  priceChange_h6 : ℚ := 0
  priceChange_h24 : ℚ := 0
  priceChange_h7 : ℚ := 0
  deriving Repr, DecidableEq

/-- Dataclass `VolumeMomentum` (`smart_money_momentum_agent.py`). -/
structure VolumeMomentum where
  current_volume_24h : ℚ
  avg_volume_7d : ℚ
  volume_ratio : ℚ
  volume_trend : String
  volume_spikes_24h : ℕ
  buy_pressure : ℚ
  sell_pressure : ℚ
  net_pressure : ℚ
  accumulation_score : ℚ
  distribution_score : ℚ
  unusual_activity : Bool
  volume_insights : List String := []
  deriving Repr, DecidableEq

/-! The local accumulators of the `for pair in data[:5]` loop of
`analyze_volume_momentum` are named here as top-level definitions, one per
loop variable, so that the theorems can speak about them. -/

/-- Local `total_volume_24h` of `analyze_volume_momentum`: 24h volume summed over
the top 5 pairs. -/
def vmTotalVolume (data : List TokenPair) : ℚ :=
  ((data.take 5).map (·.volume_h24)).sum

/-- Local `buy_volume` of `analyze_volume_momentum`: 60% of a pair's 24h volume on
an up day, 40% otherwise. -/
def vmBuyVolume (data : List TokenPair) : ℚ :=
  ((data.take 5).map (fun p =>
    if p.priceChange_h24 > 0 then p.volume_h24 * 0.6
    else p.volume_h24 * 0.4)).sum

/-- Local `sell_volume` of `analyze_volume_momentum`: the complementary 40/60
split. -/
def vmSellVolume (data : List TokenPair) : ℚ :=
  ((data.take 5).map (fun p =>
    if p.priceChange_h24 > 0 then p.volume_h24 * 0.4
    else p.volume_h24 * 0.6)).sum

/-- Local `volume_history` of `analyze_volume_momentum`: the truthy `h6`/`h24`
volume buckets of the top 5 pairs, in loop order. -/
def vmVolumeHistory (data : List TokenPair) : List ℚ :=
  (data.take 5).flatMap (fun p =>
    (if p.volume_h6 ≠ 0 then [p.volume_h6] else []) ++
    (if p.volume_h24 ≠ 0 then [p.volume_h24] else []))

/-- Local `avg_volume` of `analyze_volume_momentum`. -/
def vmAvgVolume (data : List TokenPair) : ℚ :=
  if ¬ (vmVolumeHistory data).isEmpty then
    (vmVolumeHistory data).sum / (vmVolumeHistory data).length
  else vmTotalVolume data

/-- Local `volume_ratio` of `analyze_volume_momentum`. -/
def vmVolumeRatio (data : List TokenPair) : ℚ :=
  if vmAvgVolume data > 0 then vmTotalVolume data / vmAvgVolume data else 1.0

/-- Local `volume_trend` of `analyze_volume_momentum`. -/
def vmVolumeTrend (data : List TokenPair) : String :=
  if vmVolumeRatio data ≥ VOLUME_SPIKE_THRESHOLD then "spiking"
  else if vmVolumeRatio data ≥ 1.5 then "increasing"
  else if vmVolumeRatio data ≤ 0.7 then "decreasing"
  else "stable"

/-- Local `buy_pressure` of `analyze_volume_momentum`. -/
def vmBuyPressure (data : List TokenPair) : ℚ :=
  if vmBuyVolume data + vmSellVolume data > 0 then
    vmBuyVolume data / (vmBuyVolume data + vmSellVolume data) * 100
  else 50

/-- Local `sell_pressure` of `analyze_volume_momentum`. -/
def vmSellPressure (data : List TokenPair) : ℚ :=
  if vmBuyVolume data + vmSellVolume data > 0 then
    vmSellVolume data / (vmBuyVolume data + vmSellVolume data) * 100
  else 50

/-- Local `net_pressure` of `analyze_volume_momentum`. -/
def vmNetPressure (data : List TokenPair) : ℚ :=
  vmBuyPressure data - vmSellPressure data

/-- The `accumulation_score`/`distribution_score` branch of
`analyze_volume_momentum`. -/
def vmScores (data : List TokenPair) : ℚ × ℚ :=
  if vmNetPressure data > 20 ∧
      (vmVolumeTrend data = "increasing" ∨ vmVolumeTrend data = "spiking")
    then (80, 20)
  else if vmNetPressure data < -20 ∧
      (vmVolumeTrend data = "increasing" ∨ vmVolumeTrend data = "spiking")
    then (20, 80)
  else (50, 50)

/-- Embeds `SmartMoneyMomentumAgent.analyze_volume_momentum`
(`smart_money_momentum_agent.py`), over the DexScreener pair list (the network
fetch is the snapshot input).  Aggregates the top 5 pairs; buy/sell volume is
the source's 60/40 estimate keyed on the sign of the 24h price change. -/
def analyze_volume_momentum (data : List TokenPair) : VolumeMomentum :=
  if data.isEmpty then
    { current_volume_24h := 0, avg_volume_7d := 0, volume_ratio := 1.0,
      volume_trend := "stable", volume_spikes_24h := 0, buy_pressure := 50,
      sell_pressure := 50, net_pressure := 0, accumulation_score := 50,
      distribution_score := 50, unusual_activity := false }
  else
    let volume_trend := vmVolumeTrend data
    let net_pressure := vmNetPressure data
    let accumulation_score := (vmScores data).1
    let distribution_score := (vmScores data).2
    let insights : List String :=
      (if volume_trend = "spiking" then
        ["🔥 Volume spike detected (" ++ pyFormatF 1 (vmVolumeRatio data) ++ "x average)"]
       else []) ++
      (if net_pressure > 30 then
        ["🟢 Strong buy pressure (" ++ pyFormatF 0 (vmBuyPressure data) ++ "%)"]
       else if net_pressure < -30 then
        ["🔴 Strong sell pressure (" ++ pyFormatF 0 (vmSellPressure data) ++ "%)"]
       else []) ++
      (if accumulation_score > 70 then ["📈 Accumulation pattern detected"]
       else if distribution_score > 70 then ["📉 Distribution pattern detected"]
       else [])
    { current_volume_24h := vmTotalVolume data
      avg_volume_7d := vmAvgVolume data
      volume_ratio := vmVolumeRatio data
      volume_trend := volume_trend
      volume_spikes_24h := if volume_trend = "spiking" then 1 else 0
      buy_pressure := vmBuyPressure data
      sell_pressure := vmSellPressure data
      net_pressure := net_pressure
      accumulation_score := accumulation_score
      distribution_score := distribution_score
      unusual_activity := volume_trend = "spiking"
      volume_insights := insights }

/-- Dataclass `MomentumIndicators` (`smart_money_momentum_agent.py`). -/
structure MomentumIndicators where
  rsi_14 : ℚ
  rsi_trend : String
  macd_signal : String
  price_momentum_24h : ℚ
  price_momentum_7d : ℚ
  volatility_24h : ℚ
  support_level : Option ℚ := none
  resistance_level : Option ℚ := none
  trend_direction : String := "sideways"
  trend_strength : ℚ := 0
  deriving Repr, DecidableEq

/-- Embeds `SmartMoneyMomentumAgent.analyze_momentum_indicators`
(`smart_money_momentum_agent.py`), over the DexScreener pair list and the
current price.  Only the first pair is read. -/
def analyze_momentum_indicators (data : List TokenPair) (current_price : ℚ) :
    MomentumIndicators :=
  match data with
  | [] =>
    { rsi_14 := 50, rsi_trend := "neutral", macd_signal := "neutral",
      price_momentum_24h := 0, price_momentum_7d := 0, volatility_24h := 0,
      trend_direction := "sideways", trend_strength := 0 }
  | pair :: _ =>
    let price_change_24h := pair.priceChange_h24
    let price_change_7d := pair.priceChange_h7
    let rsiAndTrend : ℚ × String :=
      if price_change_24h > 10 then
        let rsi := 70 + min (price_change_24h / 2) 25
        (rsi, if rsi > 70 then "overbought" else "neutral")
      else if price_change_24h < -10 then
        let rsi := 30 - min (|price_change_24h| / 2) 25
        (rsi, if rsi < 30 then "oversold" else "neutral")
      else (50 + price_change_24h, "neutral")
    let rsi := max 0 (min 100 rsiAndTrend.1)
    let rsi_trend := rsiAndTrend.2
    let trendInfo : String × ℚ × String :=
      if price_change_24h > 5 ∧
          (if price_change_7d ≠ 0 then price_change_7d > 0 else True) then
        ("up", min (|price_change_24h| * 3) 100, "bullish")
      else if price_change_24h < -5 ∧
          (if price_change_7d ≠ 0 then price_change_7d < 0 else True) then
        ("down", min (|price_change_24h| * 3) 100, "bearish")
      else ("sideways", 20, "neutral")
    let trend := trendInfo.1
    let trend_strength := trendInfo.2.1
    let macd := trendInfo.2.2
    let price_changes : List ℚ :=
      (if pair.priceChange_m5 ≠ 0 then [pair.priceChange_m5] else []) ++
      (if pair.priceChange_h1 ≠ 0 then [pair.priceChange_h1] else []) ++
      (if pair.priceChange_h6 ≠ 0 then [pair.priceChange_h6] else []) ++
      (if pair.priceChange_h24 ≠ 0 then [pair.priceChange_h24] else [])
    let volatility : ℚ :=
      if ¬ price_changes.isEmpty then
        (price_changes.map (|·|)).sum / price_changes.length
      else 0
    let support := if trend = "up" then current_price * 0.9 else current_price * 0.95
    let resistance := if trend = "down" then current_price * 1.1 else current_price * 1.05
    { rsi_14 := rsi
      rsi_trend := rsi_trend
      macd_signal := macd
      price_momentum_24h := price_change_24h
      price_momentum_7d := price_change_7d
      volatility_24h := volatility
      support_level := some support
      resistance_level := some resistance
      trend_direction := trend
      trend_strength := trend_strength }

/-- Dataclass `ChartPattern` (`smart_money_momentum_agent.py`). -/
structure ChartPattern where
  pattern_type : String
  confidence : ℚ
  price_target : Option ℚ := none
  stop_loss : Option ℚ := none
  timeframe : String := "1h"
  description : String := ""
  supporting_indicators : List String := []
  deriving Repr, DecidableEq

/-- Embeds `SmartMoneyMomentumAgent.detect_chart_patterns`
(`smart_money_momentum_agent.py`): the five independent pattern rules, in
source order. -/
def detect_chart_patterns (momentum : MomentumIndicators)
    (volume : VolumeMomentum) (price : ℚ) : List ChartPattern :=
  (if momentum.trend_direction = "up" ∧ volume.volume_trend = "spiking" ∧
      momentum.price_momentum_24h > 10 then
    [{ pattern_type := "breakout"
       confidence := min (momentum.trend_strength + 10) 95
       price_target := some (price * 1.2)
       stop_loss := some (price * 0.92)
       timeframe := "1h-4h"
       description := "Strong breakout with " ++ pyFormatF 1 volume.volume_ratio ++
         "x volume spike"
       supporting_indicators := ["Volume spike", "Momentum up", "RSI momentum"] }]
   else []) ++
  (if volume.accumulation_score > 70 ∧ momentum.rsi_trend = "oversold" then
    [{ pattern_type := "accumulation"
       confidence := 75
       price_target := some (price * 1.15)
       stop_loss := some (price * 0.88)
       timeframe := "4h-24h"
       description := "Accumulation phase with oversold RSI"
       supporting_indicators := ["Buy pressure", "Oversold RSI", "Volume building"] }]
   else []) ++
  (if momentum.trend_direction = "sideways" ∧ volume.volume_trend = "decreasing" then
    [{ pattern_type := "consolidation"
       confidence := 60
       price_target := some (price * 1.1)
       stop_loss := some (price * 0.9)
       timeframe := "1h-6h"
       description := "Price consolidating, awaiting breakout"
       supporting_indicators := ["Low volatility", "Volume contraction"] }]
   else []) ++
  (if volume.distribution_score > 70 ∧ momentum.rsi_trend = "overbought" then
    [{ pattern_type := "distribution"
       confidence := 70
       price_target := some (price * 0.85)
       stop_loss := some (price * 1.05)
       timeframe := "1h-4h"
       description := "Distribution pattern with overbought RSI"
       supporting_indicators := ["Sell pressure", "Overbought RSI"] }]
   else []) ++
  (if momentum.trend_direction = "down" ∧ volume.volume_trend = "spiking" then
    [{ pattern_type := "breakdown"
       confidence := min (momentum.trend_strength + 10) 90
       price_target := some (price * 0.8)
       stop_loss := some (price * 1.08)
       timeframe := "1h-4h"
       description := "Breakdown with volume confirmation"
       supporting_indicators := ["Volume spike", "Down momentum"] }]
   else [])

/-- Embeds `SmartMoneyMomentumAgent.calculate_smart_money_score`
(`smart_money_momentum_agent.py`): base 50 plus the holder bonuses, clamped to
[0, 100]. -/
def calculate_smart_money_score (holders : HolderMetrics) : ℚ :=
  let score : ℚ := 50 +
    (if holders.smart_money_count ≥ 5 then 15
     else if holders.smart_money_count ≥ 3 then 10
     else if holders.smart_money_count ≥ 1 then 5
     else 0) +
    (if holders.smart_money_buying then 20 else 0) +
    (if holders.smart_money_selling then -15 else 0) +
    (if holders.smart_money_holdings_percent ≥ 10 then 10
     else if holders.smart_money_holdings_percent ≥ 5 then 5
     else 0) +
    (if holders.concentration_risk = "high" then -10
     else if holders.concentration_risk = "low" then 5
     else 0)
  max 0 (min 100 score)

/-- Embeds `SmartMoneyMomentumAgent.calculate_momentum_score`
(`smart_money_momentum_agent.py`): base 50 plus the volume-trend, pressure,
price-momentum, RSI and trend adjustments, clamped to [0, 100].  The
price-momentum branch chain is embedded exactly as written in the source,
including the final `< -20` arm that the preceding `< -10` arm shadows. -/
def calculate_momentum_score (volume : VolumeMomentum)
    (indicators : MomentumIndicators) : ℚ :=
  let score : ℚ := 50 +
    (if volume.volume_trend = "spiking" then 20
     else if volume.volume_trend = "increasing" then 10
     else if volume.volume_trend = "decreasing" then -10
     else 0) +
    (volume.net_pressure / 5) +
    (if indicators.price_momentum_24h > 20 then 15
     else if indicators.price_momentum_24h > 10 then 10
     else if indicators.price_momentum_24h < -10 then -10
     else if indicators.price_momentum_24h < -20 then -15
     else 0) +
    (if indicators.rsi_trend = "oversold" then 10
     else if indicators.rsi_trend = "overbought" then -10
     else 0) +
    (if indicators.trend_direction = "up" then 10
     else if indicators.trend_direction = "down" then -10
     else 0)
  max 0 (min 100 score)

/-- Average confidence of a pattern list (`sum(p.confidence)/len(...)` in
`calculate_pattern_score`). -/
def avgConfidence (patterns : List ChartPattern) : ℚ :=
  (patterns.map (·.confidence)).sum / patterns.length

/-- Embeds `SmartMoneyMomentumAgent.calculate_pattern_score`
(`smart_money_momentum_agent.py`). -/
def calculate_pattern_score (patterns : List ChartPattern) : ℚ :=
  if patterns.isEmpty then 50
  else
    let bullish := patterns.filter (fun p =>
      decide (p.pattern_type = "breakout" ∨ p.pattern_type = "accumulation"))
    let bearish := patterns.filter (fun p =>
      decide (p.pattern_type = "breakdown" ∨ p.pattern_type = "distribution"))
    if ¬ bullish.isEmpty ∧ bearish.isEmpty then
      50 + avgConfidence bullish / 2
    else if ¬ bearish.isEmpty ∧ bullish.isEmpty then
      50 - avgConfidence bearish / 2
    else if ¬ bullish.isEmpty ∧ ¬ bearish.isEmpty then
      50 + (avgConfidence bullish - avgConfidence bearish) / 2
    else 50

/-- Embeds `SmartMoneyMomentumAgent.generate_signal`
(`smart_money_momentum_agent.py`): weighted combination 0.35/0.40/0.25, the
signal class, and the agreement-based confidence.  Returns
`(signal, confidence, combined)` as the source does. -/
def generate_signal (smart_money_score momentum_score pattern_score : ℚ)
    (patterns : List ChartPattern) : String × ℚ × ℚ :=
  let combined : ℚ :=
    smart_money_score * 0.35 + momentum_score * 0.40 + pattern_score * 0.25
  let signal :=
    if combined ≥ 75 then "strong_buy"
    else if combined ≥ 60 then "buy"
    else if combined ≥ 45 then "hold"
    else if combined ≥ 30 then "sell"
    else "strong_sell"
  let variance :=
    max smart_money_score (max momentum_score pattern_score) -
      min smart_money_score (min momentum_score pattern_score)
  let confidence : ℚ :=
    if variance < 20 then 85
    else if variance < 40 then 70
    else 55
  (signal, confidence, combined)

/-- Dataclass `AgentConfig` (`smart_money_momentum_agent.py`). -/
structure AgentConfig where
  enabled : Bool := true
  min_liquidity_usd : ℚ := 10000
  min_market_cap : ℚ := 50000
  max_risk_score : ℤ := 50
  data_dir : String := "data/smart_money"
  cache_duration_minutes : ℕ := 15
  deriving Repr, DecidableEq

/-- Dataclass `SmartMoneySignal` (`smart_money_momentum_agent.py`). -/
structure SmartMoneySignal where
  token_address : String
  symbol : String
  timestamp : String
  smart_money_score : ℚ
  momentum_score : ℚ
  pattern_score : ℚ
  combined_score : ℚ
  holder_metrics : HolderMetrics
  volume_momentum : VolumeMomentum
  momentum_indicators : MomentumIndicators
  detected_patterns : List ChartPattern
  signal_type : String
  confidence : ℚ
  timeframe : String
  key_insights : List String := []
  red_flags : List String := []
  green_flags : List String := []
  suggested_entry : Option ℚ := none
  suggested_stop : Option ℚ := none
  suggested_target : Option ℚ := none
  risk_reward_ratio : Option String := none
  deriving Repr, DecidableEq

/-- Python `max(patterns, key=lambda p: p.confidence)`: the first pattern of
maximal confidence. -/
def maxByConfidence (head : ChartPattern) (tail : List ChartPattern) :
    ChartPattern :=
  tail.foldl (fun best p => if p.confidence > best.confidence then p else best)
    head

/-- The snapshot of external data `analyze_token` and its sub-analyses read:
the DexScreener `token-pairs/v1/solana/...` response (read by
`analyze_token`, `analyze_volume_momentum` and `analyze_momentum_indicators`,
identical per the snapshot assumption) and the Helius holder list consumed by
`analyze_holders`. -/
structure TokenSnapshotData where
  pairs : List TokenPair
  holders : List RawHolder
  deriving Repr, DecidableEq

/-- The body of `SmartMoneyMomentumAgent.analyze_token`
(`smart_money_momentum_agent.py`) after the liquidity gate: the analyses, the
scores, the generated signal, the insight/flag lists and the returned
`SmartMoneySignal` (whose `timestamp` the source sets from
`datetime.now().isoformat()`, threaded here as `now`).  `pair` is `data[0]`
and `pairs` the full DexScreener response. -/
def signalOf (now : String) (token_address : String) (pair : TokenPair)
    (pairs : List TokenPair) (holdersRaw : List RawHolder) : SmartMoneySignal :=
    let symbol := pair.baseToken_symbol
    let price := pair.priceUsd
    let holders := analyze_holders holdersRaw price
    let volume := analyze_volume_momentum pairs
    let momentum := analyze_momentum_indicators pairs price
      let patterns := detect_chart_patterns momentum volume price
      let sm_score := calculate_smart_money_score holders
      let mom_score := calculate_momentum_score volume momentum
      let pat_score := calculate_pattern_score patterns
      let signalResult := generate_signal sm_score mom_score pat_score patterns
      let signal_type := signalResult.1
      let confidence := signalResult.2.1
      let combined := signalResult.2.2
      let insights : List String :=
        (if holders.smart_money_buying then
          ["🧠 " ++ toString holders.smart_money_count ++
            " smart money wallets accumulating"]
         else []) ++
        volume.volume_insights ++
        (patterns.map (fun p =>
          "📊 " ++ p.pattern_type.toUpper ++ ": " ++ p.description))
      let green_flags : List String :=
        (if holders.smart_money_buying then ["Smart money buying"] else []) ++
        (if volume.volume_trend = "spiking" then
          ["Volume spike (" ++ pyFormatF 1 volume.volume_ratio ++ "x)"]
         else []) ++
        (if momentum.trend_direction = "up" then
          ["Uptrend (+" ++ pyFormatF 1 momentum.price_momentum_24h ++ "%)"]
         else []) ++
        (if momentum.rsi_trend = "oversold" then ["Oversold (potential bounce)"]
         else []) ++
        (patterns.flatMap (fun p =>
          if p.pattern_type = "breakout" ∨ p.pattern_type = "accumulation" then
            [p.pattern_type.capitalize ++ " pattern"]
          else []))
      let red_flags : List String :=
        (if holders.smart_money_selling then ["Smart money selling"] else []) ++
        (if momentum.trend_direction = "down" then
          ["Downtrend (" ++ pyFormatF 1 momentum.price_momentum_24h ++ "%)"]
         else []) ++
        (if momentum.rsi_trend = "overbought" then
          ["Overbought (potential pullback)"]
         else []) ++
        (patterns.flatMap (fun p =>
          if ¬ (p.pattern_type = "breakout" ∨ p.pattern_type = "accumulation") ∧
              (p.pattern_type = "breakdown" ∨ p.pattern_type = "distribution") then
            [p.pattern_type.capitalize ++ " pattern"]
          else [])) ++
        (if holders.concentration_risk = "high" then ["High holder concentration"]
         else [])
      let suggested_entry := price
      let bullish_patterns := patterns.filter (fun p =>
        decide (p.pattern_type = "breakout" ∨ p.pattern_type = "accumulation"))
      let stopAndTarget : Option ℚ × Option ℚ :=
        match bullish_patterns with
        | [] => (none, none)
        | b :: bs =>
          if signal_type = "buy" ∨ signal_type = "strong_buy" then
            let best_pattern := maxByConfidence b bs
            (best_pattern.stop_loss, best_pattern.price_target)
          else (none, none)
      let suggested_stop := stopAndTarget.1
      let suggested_target := stopAndTarget.2
      let risk_reward : Option String :=
        match suggested_stop, suggested_target with
        | some s, some t =>
          if s ≠ 0 ∧ t ≠ 0 then
            let risk := |price - s|
            let reward := |t - price|
            if risk > 0 then some ("1:" ++ pyFormatF 1 (reward / risk)) else none
          else none
        | _, _ => none
      { token_address := token_address
        symbol := symbol
        timestamp := now
        smart_money_score := pyRound 1 sm_score
        momentum_score := pyRound 1 mom_score
        pattern_score := pyRound 1 pat_score
        combined_score := pyRound 1 combined
        holder_metrics := holders
        volume_momentum := volume
        momentum_indicators := momentum
        detected_patterns := patterns
        signal_type := signal_type
        confidence := pyRound 0 confidence
        timeframe := if momentum.volatility_24h > 50 then "scalping" else "swing"
        key_insights := insights
        red_flags := red_flags
        green_flags := green_flags
        suggested_entry :=
          if suggested_entry ≠ 0 then some (pyRound 8 suggested_entry) else none
        suggested_stop :=
          match suggested_stop with
          | some s => if s ≠ 0 then some (pyRound 8 s) else none
          | none => none
        suggested_target :=
          match suggested_target with
          | some t => if t ≠ 0 then some (pyRound 8 t) else none
          | none => none
        risk_reward_ratio := risk_reward }

/-- Embeds `SmartMoneyMomentumAgent.analyze_token`
(`smart_money_momentum_agent.py`): the full pipeline over one immutable
snapshot — `None` for an empty pair list or insufficient liquidity, otherwise
the `SmartMoneySignal` built by `signalOf`.  The wall clock the source reads
with `datetime.now().isoformat()` is the explicit `now` argument. -/
def analyze_token (config : AgentConfig) (now : String) (token_address : String)
    (snap : TokenSnapshotData) : Option SmartMoneySignal :=
  match snap.pairs with
  | [] => none
  | pair :: _ =>
    if pair.liquidity_usd < config.min_liquidity_usd then none
    else some (signalOf now token_address pair snap.pairs snap.holders)

/-- A `SmartMoneySignal` with its `timestamp` field blanked: the projection of
the pipeline output onto its snapshot-determined fields. -/
def eraseTimestamp (s : SmartMoneySignal) : SmartMoneySignal :=
  { s with timestamp := "" }

/-! ## `scripts/chart_analyzer.py` -/

/-- Dataclass `Candle` (`chart_analyzer.py`).  The Python field `open` is
rendered `open_` (`open` is a Lean keyword). -/
structure Candle where
  timestamp : ℤ
  open_ : ℚ
  high : ℚ
  low : ℚ
  close : ℚ
  volume : ℚ
  deriving Repr, DecidableEq

/-- Python `xs[-period:]` for `period ≥ 1`: the trailing `period` elements
(the whole list when `period` exceeds its length). -/
def lastN (period : ℕ) (xs : List ℚ) : List ℚ := xs.drop (xs.length - period)

/-- The consecutive close-to-close changes `closes[i] - closes[i-1]` of
`calculate_rsi` (`chart_analyzer.py`). -/
def rsiChanges (candles : List Candle) : List ℚ :=
  let closes := candles.map (·.close)
  List.zipWith (fun a b => a - b) closes.tail closes

/-- The `gains` series of `calculate_rsi`: positive changes, else 0. -/
def rsiGains (candles : List Candle) : List ℚ :=
  (rsiChanges candles).map (fun change => if change > 0 then change else 0)

/-- The `losses` series of `calculate_rsi`: `abs(change)` for non-positive
changes, else 0. -/
def rsiLosses (candles : List Candle) : List ℚ :=
  (rsiChanges candles).map (fun change => if change > 0 then 0 else |change|)

/-- The trailing average loss `sum(losses[-period:]) / period` of
`calculate_rsi`. -/
def rsiAvgLoss (candles : List Candle) (period : ℕ) : ℚ :=
  (lastN period (rsiLosses candles)).sum / period

/-- The trailing average gain `sum(gains[-period:]) / period` of
`calculate_rsi`. -/
def rsiAvgGain (candles : List Candle) (period : ℕ) : ℚ :=
  (lastN period (rsiGains candles)).sum / period

/-- Embeds `ChartAnalyzer.calculate_rsi` (`chart_analyzer.py`), default
`period = 14`.  Returns `none` for fewer than `period + 1` candles and the
sentinel `100` when the trailing average loss is zero.  (For `period = 0` the
source would divide by zero; the claims are stated for positive periods.) -/
def calculate_rsi (candles : List Candle) (period : ℕ := 14) : Option ℚ :=
  if candles.length < period + 1 then none
  else
    let gains := rsiGains candles
    if gains.length < period then none
    else
      let avg_gain := rsiAvgGain candles period
      let avg_loss := rsiAvgLoss candles period
      if avg_loss = 0 then some 100
      else
        let rs := avg_gain / avg_loss
        some (100 - 100 / (1 + rs))

/-! ## Theorems -/

/-- The rating chain of `calculate_overall_risk` agrees with the spec's step
function at every score. -/
theorem codeRating_eq_specRating (s : ℤ) :
    (if s ≤ 20 then "LOW" else if s ≤ 40 then "MEDIUM"
     else if s ≤ 60 then "HIGH" else "EXTREME") = specRating s := by
  unfold specRating
  split_ifs <;> first | rfl | omega

/-- C1: for every `RiskFactors` input, the overall risk score equals the
integer truncation of the weighted sum of the ten sub-scores with the fixed
weights mint .15, freeze .08, liquidity .15, concentration .12, age .08,
verification .07, scam .12, volume .10, volatility .08, manipulation .05, and
the rating is the step function of that score (LOW for score ≤ 20, MEDIUM for
21–40, HIGH for 41–60, EXTREME for score > 60; in particular 20→LOW,
21→MEDIUM, 40→MEDIUM, 41→HIGH, 60→HIGH, 61→EXTREME). -/
theorem C1_overall_risk_matches_spec (factors : RiskFactors) :
    calculate_overall_risk factors =
      (pyTrunc (specWeightedSum factors),
        specRating (pyTrunc (specWeightedSum factors))) ∧
    specRating 20 = "LOW" ∧ specRating 21 = "MEDIUM" ∧
    specRating 40 = "MEDIUM" ∧ specRating 41 = "HIGH" ∧
    specRating 60 = "HIGH" ∧ specRating 61 = "EXTREME" := by
  refine ⟨?_, by decide, by decide, by decide, by decide, by decide, by decide⟩
  unfold calculate_overall_risk specWeightedSum
  rw [Prod.mk.injEq]
  exact ⟨rfl, codeRating_eq_specRating _⟩

/-- An all-zero `TokenMetadata` record (no authorities, initialized). -/
def zeroMetadata : TokenMetadata :=
  { name := "", symbol := "", mint_authority := none, freeze_authority := none,
    supply := 0, decimals := 0, isInitialized := true }

/-- An all-zero `ChartMetrics` record: the snapshot of a token with no
market. -/
def zeroChart : ChartMetrics :=
  { current_price := 0, price_change_24h := 0, market_cap := 0,
    liquidity_usd := 0, fdv := 0, pairs_count := 0, volume_24h := 0,
    top_pair_address := none, dex_platform := none, timeframes := [] }

/-- A chart with nonzero liquidity and 20x volume turnover: the input on
which `volume_risk` attains its largest value 80. -/
def washChart : ChartMetrics :=
  { zeroChart with liquidity_usd := 1000, volume_24h := 20000 }

/-- C2 counterexample: on the all-zero market snapshot the volume risk is the
neutral initial value 50 — not the worst-case contribution (80, attained on
`washChart`) the claim requires; the guarded volume/liquidity branch is simply
skipped when liquidity is zero. -/
theorem C2_counterexample :
    (calculate_risk_scores zeroMetadata ⟨0⟩ ⟨0⟩ [] zeroChart).volume_risk = 50 ∧
    (calculate_risk_scores zeroMetadata ⟨0⟩ ⟨0⟩ [] washChart).volume_risk = 80 ∧
    (50 : ℤ) < 80 := by
  refine ⟨?_, ?_, by decide⟩ <;>
    norm_num [calculate_risk_scores, zeroChart, washChart]

/-- C2 (amended): for every snapshot with zero liquidity the liquidity risk
takes its worst-case value 100, while the volume risk keeps its neutral
initial value 50 (the volume/liquidity ratio branch is guarded by
`liquidity_usd > 0` and never runs). -/
theorem C2_zero_liquidity_scores (metadata : TokenMetadata)
    (holders : HoldersDict) (age : AgeDict) (red_flags : List String)
    (chart : ChartMetrics) (h : chart.liquidity_usd = 0) :
    (calculate_risk_scores metadata holders age red_flags chart).liquidity_risk
        = 100 ∧
    (calculate_risk_scores metadata holders age red_flags chart).volume_risk
        = 50 := by
  constructor <;> norm_num [calculate_risk_scores, h]

/-- Witness for `C2_zero_liquidity_scores` at the all-zero snapshot. -/
theorem C2_zero_liquidity_scores_witness :
    (calculate_risk_scores zeroMetadata ⟨0⟩ ⟨0⟩ [] zeroChart).liquidity_risk
        = 100 ∧
    (calculate_risk_scores zeroMetadata ⟨0⟩ ⟨0⟩ [] zeroChart).volume_risk
        = 50 :=
  C2_zero_liquidity_scores zeroMetadata ⟨0⟩ ⟨0⟩ [] zeroChart rfl

/-- C7: for every positive current price, every setup type and every risk
score, `calculate_entry_exit` returns the base levels of the setup type put
through the risk-tier adjustment, and that adjustment keeps all three targets
for risk ≤ 30, collapses target 3 into target 2 for risk 31–40 (targets 1 and
2 unchanged), and for risk > 40 sets target 2 to 1.02 × (the unchanged)
target 1 and target 3 equal to target 2. -/
theorem C7_risk_tier_adjustment (current_price : ℚ) (risk_score : ℤ)
    (setup_type : String) (hp : 0 < current_price) :
    calculate_entry_exit current_price risk_score setup_type =
      some (adjustForRisk risk_score (baseLevels setup_type current_price)) ∧
    (risk_score ≤ 30 →
      adjustForRisk risk_score (baseLevels setup_type current_price) =
        baseLevels setup_type current_price) ∧
    (31 ≤ risk_score → risk_score ≤ 40 →
      (adjustForRisk risk_score (baseLevels setup_type current_price)).tp1 =
          (baseLevels setup_type current_price).tp1 ∧
      (adjustForRisk risk_score (baseLevels setup_type current_price)).tp2 =
          (baseLevels setup_type current_price).tp2 ∧
      (adjustForRisk risk_score (baseLevels setup_type current_price)).tp3 =
          (adjustForRisk risk_score (baseLevels setup_type current_price)).tp2) ∧
    (40 < risk_score →
      (adjustForRisk risk_score (baseLevels setup_type current_price)).tp1 =
          (baseLevels setup_type current_price).tp1 ∧
      (adjustForRisk risk_score (baseLevels setup_type current_price)).tp2 =
          (baseLevels setup_type current_price).tp1 * 1.02 ∧
      (adjustForRisk risk_score (baseLevels setup_type current_price)).tp3 =
          (adjustForRisk risk_score (baseLevels setup_type current_price)).tp2) := by
  refine ⟨?_, ?_, ?_, ?_⟩
  · simp [calculate_entry_exit, not_le.mpr hp]
  · intro h30
    simp [adjustForRisk, h30]
  · intro h31 h40
    unfold adjustForRisk
    split_ifs <;> first | omega | simp
  · intro h41
    unfold adjustForRisk
    split_ifs <;> first | omega | simp

/-- Witness for `C7_risk_tier_adjustment` at price 100, risk 50, the
`standard` setup. -/
theorem C7_risk_tier_adjustment_witness :
    calculate_entry_exit 100 50 "standard" =
      some (adjustForRisk 50 (baseLevels "standard" 100)) ∧
    ((50 : ℤ) ≤ 30 →
      adjustForRisk 50 (baseLevels "standard" 100) = baseLevels "standard" 100) ∧
    (31 ≤ (50 : ℤ) → (50 : ℤ) ≤ 40 →
      (adjustForRisk 50 (baseLevels "standard" 100)).tp1 =
          (baseLevels "standard" 100).tp1 ∧
      (adjustForRisk 50 (baseLevels "standard" 100)).tp2 =
          (baseLevels "standard" 100).tp2 ∧
      (adjustForRisk 50 (baseLevels "standard" 100)).tp3 =
          (adjustForRisk 50 (baseLevels "standard" 100)).tp2) ∧
    (40 < (50 : ℤ) →
      (adjustForRisk 50 (baseLevels "standard" 100)).tp1 =
          (baseLevels "standard" 100).tp1 ∧
      (adjustForRisk 50 (baseLevels "standard" 100)).tp2 =
          (baseLevels "standard" 100).tp1 * 1.02 ∧
      (adjustForRisk 50 (baseLevels "standard" 100)).tp3 =
          (adjustForRisk 50 (baseLevels "standard" 100)).tp2) :=
  C7_risk_tier_adjustment 100 50 "standard" (by norm_num)

/-- C8: `position_size_by_risk` returns 3.0 for risk ≤ 30, 2.5 for 31–35,
2.0 for 36–40 and 1.0 for risk > 40, and is non-increasing in the risk
score. -/
theorem C8_position_size_tiers (r1 r2 : ℤ) (h : r1 ≤ r2) :
    position_size_by_risk r2 ≤ position_size_by_risk r1 ∧
    (r1 ≤ 30 → position_size_by_risk r1 = 3.0) ∧
    (31 ≤ r1 → r1 ≤ 35 → position_size_by_risk r1 = 2.5) ∧
    (36 ≤ r1 → r1 ≤ 40 → position_size_by_risk r1 = 2.0) ∧
    (40 < r1 → position_size_by_risk r1 = 1.0) := by
  refine ⟨?_, ?_, ?_, ?_, ?_⟩
  · unfold position_size_by_risk
    split_ifs <;> try norm_num
    all_goals omega
  · intro h30; simp [position_size_by_risk, h30]
  · intro h31 h35
    unfold position_size_by_risk
    split_ifs <;> first | rfl | omega
  · intro h36 h40
    unfold position_size_by_risk
    split_ifs <;> first | rfl | omega
  · intro h41
    unfold position_size_by_risk
    split_ifs <;> first | rfl | omega

/-- C3 counterexample: the source compares the spread of the three sub-scores
strictly (`variance < 20`, `variance < 40`).  At sub-scores (50, 50, 70) the
spread is exactly 20, which the claim's "within 20 of each other (max − min ≤
20)" includes, yet the confidence is 70, not 85; at (0, 0, 40) the spread is
exactly 40, which the claim's "spread exceeds 40" excludes, yet the confidence
is 55. -/
theorem C3_counterexample :
    (generate_signal 50 50 70 []).2.1 = 70 ∧
    max (50 : ℚ) (max 50 70) - min 50 (min 50 70) ≤ 20 ∧
    (generate_signal 0 0 40 []).2.1 = 55 ∧
    ¬ (40 < max (0 : ℚ) (max 0 40) - min 0 (min 0 40)) := by
  refine ⟨?_, ?_, ?_, ?_⟩ <;> norm_num [generate_signal, max_def, min_def]

/-- C3 (amended): for every triple of sub-scores the confidence returned by
`generate_signal` is 85 iff the spread (max − min) is strictly below 20, 55
iff the spread is at least 40, and 70 iff the spread lies in [20, 40). -/
theorem C3_confidence_thresholds (a b c : ℚ) (patterns : List ChartPattern) :
    ((generate_signal a b c patterns).2.1 = 85 ↔
      max a (max b c) - min a (min b c) < 20) ∧
    ((generate_signal a b c patterns).2.1 = 55 ↔
      40 ≤ max a (max b c) - min a (min b c)) ∧
    ((generate_signal a b c patterns).2.1 = 70 ↔
      (20 ≤ max a (max b c) - min a (min b c) ∧
        max a (max b c) - min a (min b c) < 40)) := by
  unfold generate_signal
  dsimp only
  split_ifs with h1 h2
  · refine ⟨⟨fun _ => h1, fun _ => rfl⟩, ?_, ?_⟩
    · constructor
      · intro hh; norm_num at hh
      · intro hge; exfalso; linarith
    · constructor
      · intro hh; norm_num at hh
      · intro hc; exfalso; linarith [hc.1]
  · refine ⟨?_, ?_, ⟨fun _ => ⟨not_lt.mp h1, h2⟩, fun _ => rfl⟩⟩
    · constructor
      · intro hh; norm_num at hh
      · intro hlt; exact absurd hlt h1
    · constructor
      · intro hh; norm_num at hh
      · intro hge; exfalso; linarith
  · refine ⟨?_, ⟨fun _ => not_lt.mp h2, fun _ => rfl⟩, ?_⟩
    · constructor
      · intro hh; norm_num at hh
      · intro hlt; exact absurd hlt h1
    · constructor
      · intro hh; norm_num at hh
      · intro hc; exact absurd hc.2 h2

/-- A neutral `VolumeMomentum` (stable trend, zero net pressure), as produced
for a token with no volume data. -/
def volStable : VolumeMomentum :=
  { current_volume_24h := 0, avg_volume_7d := 0, volume_ratio := 1,
    volume_trend := "stable", volume_spikes_24h := 0, buy_pressure := 50,
    sell_pressure := 50, net_pressure := 0, accumulation_score := 50,
    distribution_score := 50, unusual_activity := false }

/-- Momentum indicators with a −25% 24h price momentum and every other field
neutral. -/
def indNeg25 : MomentumIndicators :=
  { rsi_14 := 50, rsi_trend := "neutral", macd_signal := "neutral",
    price_momentum_24h := -25, price_momentum_7d := 0, volatility_24h := 0,
    trend_direction := "sideways", trend_strength := 0 }

/-- C4: evaluation of `calculate_momentum_score` at a −25% 24h momentum with
all other inputs neutral.  The source's branch chain tests `< -10` before
`< -20`, so the −15 arm is unreachable and the adjustment applied is −10:
the score is 50 − 10 = 40, not the 50 − 15 = 35 the claim (and the spec's
"−15(<−20%)") prescribe. -/
theorem C4_momentum_deadbranch_eval :
    calculate_momentum_score volStable indNeg25 = 40 ∧ (40 : ℚ) ≠ 50 - 15 := by
  constructor
  · norm_num +decide [calculate_momentum_score, volStable, indNeg25,
      max_def, min_def]
  · norm_num

/-- C10: `calculate_rsi` returns `none` on fewer than `period + 1` candles,
and returns the sentinel 100 whenever the trailing average loss over the
period is zero (for any positive period). -/
theorem C10_rsi_guards (candles : List Candle) (period : ℕ)
    (hpos : 0 < period) :
    (candles.length < period + 1 → calculate_rsi candles period = none) ∧
    (period + 1 ≤ candles.length → rsiAvgLoss candles period = 0 →
      calculate_rsi candles period = some 100) := by
  constructor
  · intro hlt
    simp [calculate_rsi, hlt]
  · intro hlen hzero
    have hnl : ¬ candles.length < period + 1 := by omega
    have hg : (rsiGains candles).length = candles.length - 1 := by
      simp [rsiGains, rsiChanges, List.length_zipWith, List.length_tail]
    have hng : ¬ (rsiGains candles).length < period := by omega
    simp [calculate_rsi, hnl, hng, hzero]

/-- Fifteen identical candles: enough history for the default period 14, with
zero average loss. -/
def flatCandles : List Candle := List.replicate 15 ⟨0, 1, 1, 1, 1, 0⟩

/-- Witness for `C10_rsi_guards`: on fifteen flat candles (period 14) the
average loss is zero and the RSI is the sentinel 100; the empty candle list
yields `none`. -/
theorem C10_rsi_guards_witness :
    calculate_rsi flatCandles 14 = some 100 ∧ calculate_rsi [] 14 = none :=
  ⟨(C10_rsi_guards flatCandles 14 (by decide)).2 (by decide)
      (by norm_num [rsiAvgLoss, rsiLosses, rsiChanges, lastN, flatCandles,
        List.replicate, List.zipWith]),
    (C10_rsi_guards [] 14 (by decide)).1 (by decide)⟩

/-- C6: for every non-empty ranked holder list and price, `analyze_holders`
builds the profiles of the top 20 holders, classifies a holder as whale iff
its percent held ≥ 1.0 and as smart money iff percent held ≥ 0.5 and
balance-in-USD ≥ 5000, sets `smart_money_buying` iff strictly more than two
smart-money profiles have balance-in-USD > 10000, always sets
`smart_money_selling` to false, and sets the net flow to +1.0 when buying,
−1.0 when selling, 0.0 otherwise. -/
theorem C6_analyze_holders_classification (raw : List RawHolder) (price : ℚ)
    (hne : raw ≠ []) :
    (analyze_holders raw price).top_holders =
      (raw.take 20).map (profileOf price) ∧
    (∀ h ∈ raw.take 20,
      ((profileOf price h).is_whale = true ↔ 1.0 ≤ h.percent_held) ∧
      ((profileOf price h).is_smart_money = true ↔
        (0.5 ≤ h.percent_held ∧ 5000 ≤ h.balance * price))) ∧
    ((analyze_holders raw price).smart_money_buying = true ↔
      2 < (((raw.take 20).map (profileOf price)).filter
        (fun h => h.is_smart_money && decide (h.balance_usd > 10000))).length) ∧
    (analyze_holders raw price).smart_money_selling = false ∧
    (analyze_holders raw price).smart_money_net_flow =
      (if (analyze_holders raw price).smart_money_buying then 1.0
       else if (analyze_holders raw price).smart_money_selling then -1.0
       else 0.0) := by
  have h0 : raw.isEmpty = false := by
    cases raw with
    | nil => exact absurd rfl hne
    | cons a l => rfl
  refine ⟨?_, ?_, ?_, ?_, ?_⟩
  · simp [analyze_holders, h0]
  · intro h _
    constructor
    · simp [profileOf]
    · simp [profileOf]
  · simp [analyze_holders, h0]
  · simp [analyze_holders, h0]
  · simp [analyze_holders, h0]

/-- Two concrete ranked holders: one whale holding 2% worth $6000, one small
holder. -/
def sampleHolders : List RawHolder :=
  [{ address := "w1", balance := 6000, percent_held := 2, uiAmount := 0 },
   { address := "w2", balance := 100, percent_held := 0, uiAmount := 0 }]

/-- Witness for `C6_analyze_holders_classification` at `sampleHolders` and
price 1. -/
theorem C6_analyze_holders_classification_witness :
    (analyze_holders sampleHolders 1).top_holders =
      (sampleHolders.take 20).map (profileOf 1) ∧
    (∀ h ∈ sampleHolders.take 20,
      ((profileOf 1 h).is_whale = true ↔ 1.0 ≤ h.percent_held) ∧
      ((profileOf 1 h).is_smart_money = true ↔
        (0.5 ≤ h.percent_held ∧ 5000 ≤ h.balance * 1))) ∧
    ((analyze_holders sampleHolders 1).smart_money_buying = true ↔
      2 < (((sampleHolders.take 20).map (profileOf 1)).filter
        (fun h => h.is_smart_money && decide (h.balance_usd > 10000))).length) ∧
    (analyze_holders sampleHolders 1).smart_money_selling = false ∧
    (analyze_holders sampleHolders 1).smart_money_net_flow =
      (if (analyze_holders sampleHolders 1).smart_money_buying then 1.0
       else if (analyze_holders sampleHolders 1).smart_money_selling then -1.0
       else 0.0) :=
  C6_analyze_holders_classification sampleHolders 1 (by decide)

/-- The per-pair 60/40 buy and 40/60 sell estimates of
`analyze_volume_momentum` sum to the pair's full volume. -/
theorem sum_buy_sell (l : List TokenPair) :
    (l.map (fun p => if p.priceChange_h24 > 0 then p.volume_h24 * 0.6
      else p.volume_h24 * 0.4)).sum +
    (l.map (fun p => if p.priceChange_h24 > 0 then p.volume_h24 * 0.4
      else p.volume_h24 * 0.6)).sum = (l.map (·.volume_h24)).sum := by
  induction l with
  | nil => simp
  | cons p t ih =>
    simp only [List.map_cons, List.sum_cons]
    split_ifs <;> linarith [ih]

/-- With nonnegative volumes, the estimated buy volume lies between 40% and
60% of the total volume. -/
theorem buy_volume_bounds (l : List TokenPair)
    (hv : ∀ p ∈ l, 0 ≤ p.volume_h24) :
    0.4 * (l.map (·.volume_h24)).sum ≤
      (l.map (fun p => if p.priceChange_h24 > 0 then p.volume_h24 * 0.6
        else p.volume_h24 * 0.4)).sum ∧
    (l.map (fun p => if p.priceChange_h24 > 0 then p.volume_h24 * 0.6
      else p.volume_h24 * 0.4)).sum ≤ 0.6 * (l.map (·.volume_h24)).sum := by
  induction l with
  | nil => simp
  | cons p t ih =>
    have hp : 0 ≤ p.volume_h24 := hv p (List.mem_cons_self p t)
    obtain ⟨ih1, ih2⟩ := ih (fun q hq => hv q (List.mem_cons_of_mem _ hq))
    simp only [List.map_cons, List.sum_cons]
    constructor <;> split_ifs <;> linarith

/-- The buy and sell pressures of `analyze_volume_momentum` sum to 100 and
the net pressure always lies in [−20, 20]. -/
theorem vm_pressure_facts (data : List TokenPair)
    (hv : ∀ p ∈ data, 0 ≤ p.volume_h24) :
    vmBuyPressure data + vmSellPressure data = 100 ∧
    -20 ≤ vmNetPressure data ∧ vmNetPressure data ≤ 20 := by
  have hv5 : ∀ p ∈ data.take 5, 0 ≤ p.volume_h24 :=
    fun p hp => hv p (List.mem_of_mem_take hp)
  have hsum := sum_buy_sell (data.take 5)
  have hbnd := buy_volume_bounds (data.take 5) hv5
  simp only [vmNetPressure, vmBuyPressure, vmSellPressure, vmBuyVolume,
    vmSellVolume]
  set B := ((data.take 5).map (fun p =>
    if p.priceChange_h24 > 0 then p.volume_h24 * 0.6
    else p.volume_h24 * 0.4)).sum with hB
  set S := ((data.take 5).map (fun p =>
    if p.priceChange_h24 > 0 then p.volume_h24 * 0.4
    else p.volume_h24 * 0.6)).sum with hS
  set V := ((data.take 5).map (·.volume_h24)).sum with hV
  by_cases hT : B + S > 0
  · rw [if_pos hT, if_pos hT]
    have hT' : B + S ≠ 0 := ne_of_gt hT
    have hnet : B / (B + S) * 100 - S / (B + S) * 100 = (B - S) * 100 / (B + S) := by
      field_simp
      ring
    obtain ⟨h1, h2⟩ := hbnd
    refine ⟨by field_simp; ring, ?_, ?_⟩
    · rw [hnet, le_div_iff₀ hT]
      linarith [hsum]
    · rw [hnet, div_le_iff₀ hT]
      linarith [hsum]
  · rw [if_neg hT, if_neg hT]
    norm_num

/-- The accumulation/distribution branch of `analyze_volume_momentum` always
falls through to the neutral (50, 50) case. -/
theorem vm_scores_neutral (data : List TokenPair)
    (hv : ∀ p ∈ data, 0 ≤ p.volume_h24) :
    vmScores data = (50, 50) := by
  obtain ⟨-, hlo, hhi⟩ := vm_pressure_facts data hv
  unfold vmScores
  rw [if_neg, if_neg]
  · rintro ⟨h, -⟩; linarith
  · rintro ⟨h, -⟩; linarith

/-- Membership in a conditional singleton list. -/
theorem mem_ite_singleton {α : Type _} {c : Prop} [Decidable c] {x pat : α}
    (h : pat ∈ (if c then [x] else [])) : pat = x := by
  split at h
  · simpa using h
  · simp at h

/-- If neither the accumulation score nor the distribution score exceeds 70,
`detect_chart_patterns` emits no accumulation and no distribution pattern. -/
theorem patterns_no_acc_dist (momentum : MomentumIndicators)
    (v : VolumeMomentum) (price : ℚ) (hacc : v.accumulation_score ≤ 70)
    (hdist : v.distribution_score ≤ 70) :
    ∀ pat ∈ detect_chart_patterns momentum v price,
      pat.pattern_type ≠ "accumulation" ∧ pat.pattern_type ≠ "distribution" := by
  intro pat hmem
  unfold detect_chart_patterns at hmem
  have h1 : ¬ (v.accumulation_score > 70 ∧ momentum.rsi_trend = "oversold") := by
    rintro ⟨h, -⟩; linarith
  have h2 : ¬ (v.distribution_score > 70 ∧ momentum.rsi_trend = "overbought") := by
    rintro ⟨h, -⟩; linarith
  rw [if_neg h1, if_neg h2] at hmem
  simp only [List.append_nil, List.nil_append, List.mem_append] at hmem
  rcases hmem with (h | h) | h
  · rw [mem_ite_singleton h]
    show ("breakout" : String) ≠ "accumulation" ∧
      ("breakout" : String) ≠ "distribution"
    decide
  · rw [mem_ite_singleton h]
    show ("consolidation" : String) ≠ "accumulation" ∧
      ("consolidation" : String) ≠ "distribution"
    decide
  · rw [mem_ite_singleton h]
    show ("breakdown" : String) ≠ "accumulation" ∧
      ("breakdown" : String) ≠ "distribution"
    decide

/-- C5: for every pair list with nonnegative volumes, the `VolumeMomentum`
produced by `analyze_volume_momentum` has buy + sell pressure = 100, net
pressure within [−20, 20], and (since the > +20 / < −20 branches are
unreachable) accumulation = distribution = 50; consequently
`detect_chart_patterns` never emits an accumulation or a distribution
pattern from it. -/
theorem C5_pressure_bounds_no_acc_dist (data : List TokenPair)
    (hv : ∀ p ∈ data, 0 ≤ p.volume_h24) :
    (analyze_volume_momentum data).buy_pressure +
      (analyze_volume_momentum data).sell_pressure = 100 ∧
    -20 ≤ (analyze_volume_momentum data).net_pressure ∧
    (analyze_volume_momentum data).net_pressure ≤ 20 ∧
    (analyze_volume_momentum data).accumulation_score = 50 ∧
    (analyze_volume_momentum data).distribution_score = 50 ∧
    (∀ momentum price pat,
      pat ∈ detect_chart_patterns momentum (analyze_volume_momentum data) price →
      pat.pattern_type ≠ "accumulation" ∧ pat.pattern_type ≠ "distribution") := by
  have hfacts :
      (analyze_volume_momentum data).buy_pressure +
        (analyze_volume_momentum data).sell_pressure = 100 ∧
      -20 ≤ (analyze_volume_momentum data).net_pressure ∧
      (analyze_volume_momentum data).net_pressure ≤ 20 ∧
      (analyze_volume_momentum data).accumulation_score = 50 ∧
      (analyze_volume_momentum data).distribution_score = 50 := by
    by_cases hd : data.isEmpty
    · rw [analyze_volume_momentum, if_pos hd]
      norm_num
    · obtain ⟨hp, hlo, hhi⟩ := vm_pressure_facts data hv
      have hsc := vm_scores_neutral data hv
      rw [analyze_volume_momentum, if_neg hd]
      exact ⟨hp, hlo, hhi, by rw [hsc], by rw [hsc]⟩
  obtain ⟨hp, hlo, hhi, hacc, hdist⟩ := hfacts
  refine ⟨hp, hlo, hhi, hacc, hdist, ?_⟩
  intro momentum price pat hmem
  exact patterns_no_acc_dist momentum _ price (by rw [hacc]; norm_num)
    (by rw [hdist]; norm_num) pat hmem

/-- Two concrete pairs, one up day and one down day, with positive volumes. -/
def samplePairs : List TokenPair :=
  [{ baseToken_symbol := "A", priceUsd := 1, liquidity_usd := 50000,
     volume_h6 := 100, volume_h24 := 1000, priceChange_m5 := 0,
     priceChange_h1 := 0, priceChange_h6 := 0, priceChange_h24 := 5,
     priceChange_h7 := 0 },
   { baseToken_symbol := "A", priceUsd := 1, liquidity_usd := 20000,
     volume_h6 := 0, volume_h24 := 400, priceChange_m5 := 0,
     priceChange_h1 := 0, priceChange_h6 := 0, priceChange_h24 := -3,
     priceChange_h7 := 0 }]

/-- Witness for `C5_pressure_bounds_no_acc_dist` at `samplePairs`. -/
theorem C5_pressure_bounds_no_acc_dist_witness :
    (analyze_volume_momentum samplePairs).buy_pressure +
      (analyze_volume_momentum samplePairs).sell_pressure = 100 ∧
    -20 ≤ (analyze_volume_momentum samplePairs).net_pressure ∧
    (analyze_volume_momentum samplePairs).net_pressure ≤ 20 ∧
    (analyze_volume_momentum samplePairs).accumulation_score = 50 ∧
    (analyze_volume_momentum samplePairs).distribution_score = 50 ∧
    (∀ momentum price pat,
      pat ∈ detect_chart_patterns momentum (analyze_volume_momentum samplePairs)
        price →
      pat.pattern_type ≠ "accumulation" ∧ pat.pattern_type ≠ "distribution") :=
  C5_pressure_bounds_no_acc_dist samplePairs (by decide)

/-- A pair that clears the $10k liquidity gate. -/
def pairA : TokenPair :=
  { baseToken_symbol := "TKN", priceUsd := 1, liquidity_usd := 20000,
    volume_h6 := 0, volume_h24 := 0, priceChange_m5 := 0, priceChange_h1 := 0,
    priceChange_h6 := 0, priceChange_h24 := 0, priceChange_h7 := 0 }

/-- A concrete snapshot whose first pair clears the $10k liquidity gate, so
`analyze_token` produces a signal. -/
def snapshotA : TokenSnapshotData := { pairs := [pairA], holders := [] }

/-- The `timestamp` of the built signal is exactly the wall-clock string. -/
theorem signalOf_timestamp (t token_address : String) (pair : TokenPair)
    (pairs : List TokenPair) (hr : List RawHolder) :
    (signalOf t token_address pair pairs hr).timestamp = t := rfl

/-- C9 counterexample: the full pipeline stamps the wall clock
(`datetime.now().isoformat()`) into `SmartMoneySignal.timestamp`, so two runs
over the identical immutable snapshot at different instants do not produce
bit-identical output. -/
theorem C9_counterexample :
    analyze_token {} "2025-01-01T00:00:00" "TOKENADDR" snapshotA ≠
      analyze_token {} "2025-01-01T00:00:01" "TOKENADDR" snapshotA := by
  intro h
  have h2 := congrArg (Option.map SmartMoneySignal.timestamp) h
  simp only [analyze_token, snapshotA, pairA] at h2
  norm_num [Option.map_some', signalOf_timestamp] at h2
  exact absurd h2 (by decide)

set_option maxHeartbeats 4000000 in
/-- The signal built by `signalOf` depends on the wall-clock argument only
through its `timestamp` field. -/
theorem eraseTimestamp_signalOf (t t' token_address : String)
    (pair : TokenPair) (pairs : List TokenPair) (hr : List RawHolder) :
    eraseTimestamp (signalOf t token_address pair pairs hr) =
      eraseTimestamp (signalOf t' token_address pair pairs hr) := by
  rfl

/-- C9 (amended): the pipeline is a pure function of its snapshot — a second
run at the same instant is identical, and runs at different instants agree on
every output field except the wall-clock `timestamp`. -/
theorem C9_deterministic_mod_timestamp (config : AgentConfig)
    (t t' token_address : String) (snap : TokenSnapshotData) :
    analyze_token config t token_address snap =
      analyze_token config t token_address snap ∧
    (analyze_token config t token_address snap).map eraseTimestamp =
      (analyze_token config t' token_address snap).map eraseTimestamp := by
  refine ⟨rfl, ?_⟩
  obtain ⟨pairs, holders⟩ := snap
  cases pairs with
  | nil => rfl
  | cons pair rest =>
    unfold analyze_token
    dsimp only
    split_ifs with hliq
    · rfl
    · simp only [Option.map_some']
      exact congrArg some (eraseTimestamp_signalOf t t' token_address pair
        (pair :: rest) holders)

/-- Witness for `C8_position_size_tiers` at risks 20 ≤ 40. -/
theorem C8_position_size_tiers_witness :
    position_size_by_risk 40 ≤ position_size_by_risk 20 ∧
    ((20 : ℤ) ≤ 30 → position_size_by_risk 20 = 3.0) ∧
    (31 ≤ (20 : ℤ) → (20 : ℤ) ≤ 35 → position_size_by_risk 20 = 2.5) ∧
    (36 ≤ (20 : ℤ) → (20 : ℤ) ≤ 40 → position_size_by_risk 20 = 2.0) ∧
    (40 < (20 : ℤ) → position_size_by_risk 20 = 1.0) :=
  C8_position_size_tiers 20 40 (by decide)
